import Mathlib

/-!
Verification of the email-signup submission flow of the streakr landing page.

The embedding follows the source in src/src/App.tsx:
- the EmailService class (static submitEmail wrapping one table-insert call),
- the useEmailSignup hook (isLoading / success / error state plus resetState),
- the UI gating of the submit button (disabled while loading or the email is
  empty, form hidden once success is set), modelled as a labelled transition
  system over the whole state holder.

Clocks and browser inputs (new Date, navigator.userAgent, document.referrer)
are passed as explicit string parameters; the persistence collaborator is
modelled by an outcome value: success, a structured error with code and
message, or a raised fault.
-/

/- Fixed strings of the source. -/

def uniqueViolationCode : String := "23505"

def duplicateEmailMsg : String := "Email already registered!"

def genericFailureMsg : String := "Failed to submit email. Please try again."

def fallbackErrorMsg : String := "Something went wrong"

/- Data model. -/

structure Benefits where
  premium_months_free : Nat
  badge : String
  early_access : Bool
deriving DecidableEq

structure Metadata where
  tier : String
  benefits : Benefits
  timestamp : String
  user_agent : String
  referrer : String
deriving DecidableEq

/-- Value stored in the metadata column: the hook passes a structured object,
and EmailService falls back to the empty object when no metadata is given
(source: metadata || in the insert payload). -/
inductive MetadataJson where
  | emptyMap : MetadataJson
  | obj : Metadata → MetadataJson
deriving DecidableEq

/-- Argument of EmailService.submitEmail (email, source, optional metadata). -/
structure EmailData where
  email : String
  source : String
  metadata : Option Metadata
deriving DecidableEq

/-- One row sent to the collaborator by the insert call. -/
structure InsertRow where
  email : String
  source : String
  metadata : MetadataJson
  created_at : String
deriving DecidableEq

/-- Structured error returned by the collaborator (code and message). -/
structure DbError where
  code : String
  message : String
deriving DecidableEq

/-- Behaviour of the underlying insert call: clean success, a structured
error, or a raised fault (network, transport, parsing). -/
inductive DbOutcome where
  | ok : DbOutcome
  | dbError : DbError → DbOutcome
  | thrown : String → DbOutcome
deriving DecidableEq

/-- Return type of EmailService.submitEmail. -/
structure SignupResult where
  success : Bool
  error : Option String
deriving DecidableEq

/- EmailService. -/

/-- The awaited insert call, viewed in the exception monad: a raised fault
propagates, otherwise the destructured error field is returned. -/
def insertOutcome (outcome : DbOutcome) : Except String (Option DbError) :=
  match outcome with
  | .ok => .ok none
  | .dbError e => .ok (some e)
  | .thrown fault => .error fault

/-- The row built for the insert call; created_at is new Date().toISOString()
evaluated in the submitting client, passed here as insertNow. -/
def insertPayload (d : EmailData) (insertNow : String) : InsertRow :=
  { email := d.email
    source := d.source
    metadata := match d.metadata with
      | none => MetadataJson.emptyMap
      | some m => MetadataJson.obj m
    created_at := insertNow }

/-- Body of the try block of EmailService.submitEmail: map the structured
error (duplicate code to the fixed message, otherwise the collaborator
message verbatim), success to a plain success result; a raised fault
escapes the block. -/
def submitEmailTry (outcome : DbOutcome) : Except String SignupResult :=
  match insertOutcome outcome with
  | .error fault => .error fault
  | .ok (some e) =>
      if e.code = uniqueViolationCode then
        .ok { success := false, error := some duplicateEmailMsg }
      else
        .ok { success := false, error := some e.message }
  | .ok none => .ok { success := true, error := none }

/-- The catch clause: any escaped fault becomes the fixed generic failure. -/
def catchAll (r : Except String SignupResult) : SignupResult :=
  match r with
  | .ok v => v
  | .error _ => { success := false, error := some genericFailureMsg }

/-- Result of EmailService.submitEmail as a function of the collaborator
outcome alone. -/
def resultOf (outcome : DbOutcome) : SignupResult :=
  catchAll (submitEmailTry outcome)

/-- EmailService.submitEmail: one insert attempt with the payload above,
and the try/catch-mapped result. -/
def EmailService.submitEmail (d : EmailData) (insertNow : String)
    (outcome : DbOutcome) : List InsertRow × SignupResult :=
  ([insertPayload d insertNow], resultOf outcome)

/-- EmailService.submitEmail viewed in the exception monad, keeping the
try/catch structure explicit: the catch clause turns every escaped fault
into an ordinary failure result, so the whole function never throws. -/
def EmailService.submitEmailE (d : EmailData) (insertNow : String)
    (outcome : DbOutcome) : Except String (List InsertRow × SignupResult) :=
  match submitEmailTry outcome with
  | .ok v => .ok ([insertPayload d insertNow], v)
  | .error _ =>
      .ok ([insertPayload d insertNow],
           { success := false, error := some genericFailureMsg })

/- useEmailSignup hook. -/

/-- JavaScript a || b on an optional string: undefined and the empty string
are both falsy and replaced by the fallback. -/
def orFallback (o : Option String) (d : String) : String :=
  match o with
  | none => d
  | some s => if s = "" then d else s

/-- The three state variables of the hook. -/
structure HookState where
  isLoading : Bool
  success : Bool
  error : Option String
deriving DecidableEq

/-- Initial hook state: useState(false), useState(false), useState(null). -/
def initialHookState : HookState :=
  { isLoading := false, success := false, error := none }

/-- The metadata object the hook attaches to every submission. -/
def foundingMetadata (metaNow userAgent referrer : String) : Metadata :=
  { tier := "founding_streaker"
    benefits :=
      { premium_months_free := 3
        badge := "founding_streaker"
        early_access := true }
    timestamp := metaNow
    user_agent := userAgent
    referrer := referrer }

/-- State updates after the awaited service call returns: clear the loading
flag, then either set success or store the error message with the
JavaScript || fallback. -/
def applyResult (h : HookState) (result : SignupResult) : HookState :=
  let h2 : HookState := { h with isLoading := false }
  if result.success then { h2 with success := true }
  else { h2 with error := some (orFallback result.error fallbackErrorMsg) }

/-- The submitEmail callback of useEmailSignup, run to completion from hook
state h: set loading, clear the error, call the service with the founding
metadata, then apply the result. Returns the final hook state, the issued
insert rows and the returned result. -/
def useEmailSignup.submitEmail (h : HookState)
    (email source metaNow insertNow userAgent referrer : String)
    (outcome : DbOutcome) : HookState × List InsertRow × SignupResult :=
  let h1 : HookState := { h with isLoading := true, error := none }
  let call := EmailService.submitEmail
    { email := email
      source := source
      metadata := some (foundingMetadata metaNow userAgent referrer) }
    insertNow outcome
  (applyResult h1 call.2, call.1, call.2)

/-- The resetState callback: setSuccess(false) and setError(null); the
loading flag is not touched. -/
def useEmailSignup.resetState (h : HookState) : HookState :=
  { h with success := false, error := none }

/- Transition system for one state holder.

Both call sites (App hero form and ExitIntentPopup) render the form only
while success is false and disable the submit button while isLoading is
true or the email field is empty, so a submit can only start from a
not-loading, not-succeeded state with a non-empty email. The asynchronous
submitEmail callback is split into its start (before the await) and its
finish (after the await); pending counts in-flight insert requests and
requests accumulates every insert row issued to the collaborator. -/

/-- Inputs of one submit call: form email, the two clock reads, browser
user agent and referrer, and the source tag of the call site. -/
structure SubmitArgs where
  email : String
  source : String
  metaNow : String
  insertNow : String
  userAgent : String
  referrer : String
deriving DecidableEq

/-- The insert row issued by a submit call with these arguments. -/
def requestOf (a : SubmitArgs) : InsertRow :=
  insertPayload
    { email := a.email
      source := a.source
      metadata := some (foundingMetadata a.metaNow a.userAgent a.referrer) }
    a.insertNow

/-- Whole state of one signup state holder: the hook state, the number of
in-flight insert requests, and the rows issued so far. -/
structure SysState where
  hook : HookState
  pending : Nat
  requests : List InsertRow
deriving DecidableEq

/-- Freshly mounted state holder: idle hook, nothing in flight, nothing
issued. -/
def initSys : SysState :=
  { hook := initialHookState, pending := 0, requests := [] }

/-- Events of the state holder: a submit call starting, the awaited call
finishing with a collaborator outcome, and a resetState call. -/
inductive Event where
  | submitStart : SubmitArgs → Event
  | submitFinish : DbOutcome → Event
  | reset : Event

/-- Labelled step relation of the state holder. -/
inductive Step : SysState → Event → SysState → Prop where
  | submitStart (s s' : SysState) (a : SubmitArgs)
      (hNotLoading : s.hook.isLoading = false)
      (hNotSuccess : s.hook.success = false)
      (hEmail : a.email ≠ "")
      (hs' : s' = { hook := { s.hook with isLoading := true, error := none }
                    pending := s.pending + 1
                    requests := s.requests ++ [requestOf a] }) :
      Step s (Event.submitStart a) s'
  | submitFinish (s s' : SysState) (outcome : DbOutcome)
      (hPending : 0 < s.pending)
      (hs' : s' = { hook := applyResult s.hook (resultOf outcome)
                    pending := s.pending - 1
                    requests := s.requests }) :
      Step s (Event.submitFinish outcome) s'
  | reset (s s' : SysState)
      (hs' : s' = { s with hook := useEmailSignup.resetState s.hook }) :
      Step s Event.reset s'

/-- States reachable from a freshly mounted holder. -/
inductive Reachable : SysState → Prop where
  | init : Reachable initSys
  | step (s : SysState) (e : Event) (s' : SysState) :
      Reachable s → Step s e s' → Reachable s'

/-- Inductive invariant of the state holder: at most one request in flight,
the loading flag tracks exactly the in-flight request, and the loading and
success flags are never set together. -/
def GoodState (s : SysState) : Prop :=
  s.pending ≤ 1 ∧ (s.hook.isLoading = true ↔ s.pending = 1) ∧
    (s.hook.isLoading = false ∨ s.hook.success = false)

theorem applyResult_isLoading (h : HookState) (r : SignupResult) :
    (applyResult h r).isLoading = false := by
  unfold applyResult
  cases hr : r.success <;> simp [hr]

theorem reachable_good (s : SysState) (hR : Reachable s) : GoodState s := by
  induction hR with
  | init => refine ⟨by simp [initSys], by simp [initSys, initialHookState], ?_⟩
            left; rfl
  | step t e t' _ hStep ih =>
      obtain ⟨h1, h2, h3⟩ := ih
      cases hStep with
      | submitStart _ a hNL hNS hEmail hs' =>
          subst hs'
          have hp : t.pending = 0 := by
            rcases Nat.lt_or_ge t.pending 1 with hlt | hge
            · omega
            · exfalso
              have : t.pending = 1 := by omega
              have := h2.mpr this
              rw [hNL] at this
              cases this
          refine ⟨by simp [hp], by simp [hp], Or.inr (by simpa using hNS)⟩
      | submitFinish _ outcome hPending hs' =>
          subst hs'
          refine ⟨?_, ?_, Or.inl (applyResult_isLoading _ _)⟩
          · show t.pending - 1 ≤ 1
            omega
          · show (applyResult t.hook (resultOf outcome)).isLoading = true ↔
              t.pending - 1 = 1
            rw [applyResult_isLoading]
            simp only [Bool.false_eq_true, false_iff]
            omega
      | reset _ hs' =>
          subst hs'
          exact ⟨h1, h2, Or.inr rfl⟩

/- Concrete executions used as witnesses. -/

/-- A concrete submit call from the hero form. -/
def heroArgs : SubmitArgs :=
  { email := "new@example.com"
    source := "hero_form"
    metaNow := "2025-01-01T00:00:00.000Z"
    insertNow := "2025-01-01T00:00:00.000Z"
    userAgent := "test-agent"
    referrer := "" }

/-- State holder right after the hero submit started: loading, one request
in flight, one row issued. -/
def heroSubmitting : SysState :=
  { hook := { isLoading := true, success := false, error := none }
    pending := 1
    requests := [requestOf heroArgs] }

theorem heroSubmitting_reachable : Reachable heroSubmitting :=
  Reachable.step initSys (Event.submitStart heroArgs) heroSubmitting
    Reachable.init
    (Step.submitStart initSys heroSubmitting heroArgs rfl rfl (by decide)
      (by decide))

/-- State holder after that submission finished successfully. -/
def heroSucceeded : SysState :=
  { hook := { isLoading := false, success := true, error := none }
    pending := 0
    requests := [requestOf heroArgs] }

theorem heroSucceeded_reachable : Reachable heroSucceeded :=
  Reachable.step heroSubmitting (Event.submitFinish DbOutcome.ok)
    heroSucceeded heroSubmitting_reachable
    (Step.submitFinish heroSubmitting heroSucceeded DbOutcome.ok
      (by decide) (by decide))

/-- Resetting a holder whose loading flag is clear yields exactly the idle
hook state. -/
theorem resetState_of_not_loading (h : HookState) (hNL : h.isLoading = false) :
    useEmailSignup.resetState h = initialHookState := by
  cases h with
  | mk l sc er =>
      simp only [useEmailSignup.resetState, initialHookState] at hNL ⊢
      simp_all

/-- C8: in every reachable state of the signup state holder, the loading
flag and the success flag are never set at the same time. -/
theorem no_loading_and_success_simultaneously (s : SysState)
    (hR : Reachable s) :
    ¬ (s.hook.isLoading = true ∧ s.hook.success = true) := by
  obtain ⟨-, -, h3⟩ := reachable_good s hR
  rintro ⟨hL, hS⟩
  cases h3 with
  | inl h => rw [hL] at h; simp at h
  | inr h => rw [hS] at h; simp at h

theorem no_loading_and_success_simultaneously_witness :
    ¬ (heroSucceeded.hook.isLoading = true ∧
       heroSucceeded.hook.success = true) :=
  no_loading_and_success_simultaneously heroSucceeded heroSucceeded_reachable

/-- C5: while the state holder is Submitting (loading flag set), no submit
step can fire, every step leaves the issued-request list unchanged, and at
most one submission is outstanding. -/
theorem no_second_request_while_submitting (s : SysState) (hR : Reachable s)
    (hLoading : s.hook.isLoading = true) :
    s.pending ≤ 1 ∧
    (∀ a s', ¬ Step s (Event.submitStart a) s') ∧
    (∀ e s', Step s e s' → s'.requests = s.requests) := by
  obtain ⟨h1, -, -⟩ := reachable_good s hR
  refine ⟨h1, ?_, ?_⟩
  · intro a s' hstep
    cases hstep
    simp_all
  · intro e s' hstep
    cases hstep <;> simp_all

theorem no_second_request_while_submitting_witness :
    heroSubmitting.pending ≤ 1 ∧
    ¬ Step heroSubmitting (Event.submitStart heroArgs) initSys :=
  ⟨(no_second_request_while_submitting heroSubmitting
      heroSubmitting_reachable rfl).1,
   (no_second_request_while_submitting heroSubmitting
      heroSubmitting_reachable rfl).2.1 heroArgs initSys⟩

/-- C6: once the holder has succeeded, no submit step can fire, and a reset
step returns the holder exactly to the idle hook state. -/
theorem succeeded_terminal_until_reset (s : SysState) (hR : Reachable s)
    (hSuccess : s.hook.success = true) :
    (∀ a s', ¬ Step s (Event.submitStart a) s') ∧
    (∀ s', Step s Event.reset s' → s'.hook = initialHookState) := by
  obtain ⟨-, -, h3⟩ := reachable_good s hR
  have hNL : s.hook.isLoading = false := by
    cases h3 with
    | inl h => exact h
    | inr h => rw [hSuccess] at h; simp at h
  constructor
  · intro a s' hstep
    cases hstep
    simp_all
  · intro s' hstep
    cases hstep
    rename_i hs'
    subst hs'
    exact resetState_of_not_loading s.hook hNL

/-- State holder after the succeeded hero submission is reset. -/
def heroAfterReset : SysState :=
  { heroSucceeded with hook := useEmailSignup.resetState heroSucceeded.hook }

theorem succeeded_terminal_until_reset_witness :
    ¬ Step heroSucceeded (Event.submitStart heroArgs) initSys ∧
    heroAfterReset.hook = initialHookState :=
  ⟨(succeeded_terminal_until_reset heroSucceeded heroSucceeded_reachable
      rfl).1 heroArgs initSys,
   (succeeded_terminal_until_reset heroSucceeded heroSucceeded_reachable
      rfl).2 heroAfterReset (Step.reset heroSucceeded heroAfterReset rfl)⟩

/-- State holder after calling resetState while the hero submission is
still in flight. -/
def heroResetWhileSubmitting : SysState :=
  { heroSubmitting with
      hook := useEmailSignup.resetState heroSubmitting.hook }

/-- C7 (counterexample): from the reachable Submitting state, a reset step
leaves the loading flag set, so the holder does not return to Idle. -/
theorem reset_during_submitting_keeps_loading :
    Reachable heroSubmitting ∧
    Step heroSubmitting Event.reset heroResetWhileSubmitting ∧
    heroResetWhileSubmitting.hook.isLoading = true ∧
    heroResetWhileSubmitting.hook ≠ initialHookState :=
  ⟨heroSubmitting_reachable, Step.reset heroSubmitting heroResetWhileSubmitting
    rfl, by decide, by decide⟩

/-- C7 (amended): resetState always clears the success flag and the stored
error and leaves the loading flag unchanged, so from any state whose
loading flag is clear (Idle, Succeeded, Failed) it returns the holder
exactly to Idle. -/
theorem reset_clears_success_and_error (h g : HookState)
    (hNL : h.isLoading = false) :
    useEmailSignup.resetState h = initialHookState ∧
    (useEmailSignup.resetState g).success = false ∧
    (useEmailSignup.resetState g).error = none ∧
    (useEmailSignup.resetState g).isLoading = g.isLoading :=
  ⟨resetState_of_not_loading h hNL, rfl, rfl, rfl⟩

theorem reset_clears_success_and_error_witness :
    useEmailSignup.resetState
        { isLoading := false, success := true, error := some "stale" }
      = initialHookState ∧
    (useEmailSignup.resetState
        { isLoading := true, success := false, error := none }).success
      = false ∧
    (useEmailSignup.resetState
        { isLoading := true, success := false, error := none }).error
      = none ∧
    (useEmailSignup.resetState
        { isLoading := true, success := false, error := none }).isLoading
      = HookState.isLoading
          { isLoading := true, success := false, error := none } :=
  reset_clears_success_and_error
    { isLoading := false, success := true, error := some "stale" }
    { isLoading := true, success := false, error := none } rfl

/- Result mapping of single submit calls. -/

theorem orFallback_of_ne (s d : String) (hs : s ≠ "") :
    orFallback (some s) d = s := by
  simp [orFallback, hs]

/-- C1: when the collaborator reports the standard unique-violation code
23505, the submit call returns success false with the fixed duplicate
message, and the holder ends Failed with exactly that message. -/
theorem submitEmail_duplicate_code_maps_to_fixed_message (h : HookState)
    (email source metaNow insertNow userAgent referrer : String)
    (e : DbError) (hCode : e.code = uniqueViolationCode)
    (hNS : h.success = false) :
    (useEmailSignup.submitEmail h email source metaNow insertNow userAgent
        referrer (DbOutcome.dbError e)).2.2
      = { success := false, error := some duplicateEmailMsg } ∧
    (useEmailSignup.submitEmail h email source metaNow insertNow userAgent
        referrer (DbOutcome.dbError e)).1
      = { isLoading := false, success := false
          error := some duplicateEmailMsg } := by
  have hres : resultOf (DbOutcome.dbError e)
      = { success := false, error := some duplicateEmailMsg } := by
    simp [resultOf, submitEmailTry, insertOutcome, catchAll, hCode]
  have hdup : orFallback (some duplicateEmailMsg) fallbackErrorMsg
      = duplicateEmailMsg :=
    orFallback_of_ne duplicateEmailMsg fallbackErrorMsg (by decide)
  constructor
  · simp [useEmailSignup.submitEmail, EmailService.submitEmail, hres]
  · simp [useEmailSignup.submitEmail, EmailService.submitEmail, applyResult,
      hres, hdup, hNS]

theorem submitEmail_duplicate_code_maps_to_fixed_message_witness :
    (useEmailSignup.submitEmail initialHookState "new@example.com"
        "hero_form" "2025-01-01T00:00:00.000Z" "2025-01-01T00:00:00.000Z"
        "test-agent" ""
        (DbOutcome.dbError
          { code := "23505"
            message := "duplicate key value violates unique" })).2.2
      = { success := false, error := some duplicateEmailMsg } ∧
    (useEmailSignup.submitEmail initialHookState "new@example.com"
        "hero_form" "2025-01-01T00:00:00.000Z" "2025-01-01T00:00:00.000Z"
        "test-agent" ""
        (DbOutcome.dbError
          { code := "23505"
            message := "duplicate key value violates unique" })).1
      = { isLoading := false, success := false
          error := some duplicateEmailMsg } :=
  submitEmail_duplicate_code_maps_to_fixed_message initialHookState
    "new@example.com" "hero_form" "2025-01-01T00:00:00.000Z"
    "2025-01-01T00:00:00.000Z" "test-agent" ""
    { code := "23505", message := "duplicate key value violates unique" }
    rfl rfl

/-- C3: a raised fault makes the submit call return the fixed generic
failure message, the holder ends Failed with that message, and neither
depends on the fault text, which is therefore never surfaced. -/
theorem unexpected_fault_yields_generic_message (h : HookState)
    (email source metaNow insertNow userAgent referrer fault : String)
    (hNS : h.success = false) :
    (useEmailSignup.submitEmail h email source metaNow insertNow userAgent
        referrer (DbOutcome.thrown fault)).2.2
      = { success := false, error := some genericFailureMsg } ∧
    (useEmailSignup.submitEmail h email source metaNow insertNow userAgent
        referrer (DbOutcome.thrown fault)).1
      = { isLoading := false, success := false
          error := some genericFailureMsg } ∧
    (∀ fault2, useEmailSignup.submitEmail h email source metaNow insertNow
        userAgent referrer (DbOutcome.thrown fault)
      = useEmailSignup.submitEmail h email source metaNow insertNow
          userAgent referrer (DbOutcome.thrown fault2)) := by
  have hgen : orFallback (some genericFailureMsg) fallbackErrorMsg
      = genericFailureMsg :=
    orFallback_of_ne genericFailureMsg fallbackErrorMsg (by decide)
  refine ⟨rfl, ?_, fun fault2 => rfl⟩
  simp [useEmailSignup.submitEmail, EmailService.submitEmail, applyResult,
    resultOf, submitEmailTry, insertOutcome, catchAll, hgen, hNS]

theorem unexpected_fault_yields_generic_message_witness :
    (useEmailSignup.submitEmail initialHookState "new@example.com"
        "hero_form" "2025-01-01T00:00:00.000Z" "2025-01-01T00:00:00.000Z"
        "test-agent" "" (DbOutcome.thrown "TypeError: fetch failed")).2.2
      = { success := false, error := some genericFailureMsg } ∧
    (useEmailSignup.submitEmail initialHookState "new@example.com"
        "hero_form" "2025-01-01T00:00:00.000Z" "2025-01-01T00:00:00.000Z"
        "test-agent" "" (DbOutcome.thrown "TypeError: fetch failed")).1
      = { isLoading := false, success := false
          error := some genericFailureMsg } ∧
    (∀ fault2, useEmailSignup.submitEmail initialHookState "new@example.com"
        "hero_form" "2025-01-01T00:00:00.000Z" "2025-01-01T00:00:00.000Z"
        "test-agent" "" (DbOutcome.thrown "TypeError: fetch failed")
      = useEmailSignup.submitEmail initialHookState "new@example.com"
          "hero_form" "2025-01-01T00:00:00.000Z" "2025-01-01T00:00:00.000Z"
          "test-agent" "" (DbOutcome.thrown fault2)) :=
  unexpected_fault_yields_generic_message initialHookState "new@example.com"
    "hero_form" "2025-01-01T00:00:00.000Z" "2025-01-01T00:00:00.000Z"
    "test-agent" "" "TypeError: fetch failed" rfl

/-- C4 (counterexample): with a structured error whose code is not 23505
and whose message is the empty string, the returned error field is the
verbatim empty message, but the stored state message is the fallback text
"Something went wrong" instead of the collaborator message. -/
theorem empty_collaborator_message_not_surfaced_in_state :
    (useEmailSignup.submitEmail initialHookState "new@example.com"
        "hero_form" "2025-01-01T00:00:00.000Z" "2025-01-01T00:00:00.000Z"
        "test-agent" ""
        (DbOutcome.dbError { code := "42P01", message := "" })).2.2
      = { success := false, error := some "" } ∧
    (useEmailSignup.submitEmail initialHookState "new@example.com"
        "hero_form" "2025-01-01T00:00:00.000Z" "2025-01-01T00:00:00.000Z"
        "test-agent" ""
        (DbOutcome.dbError { code := "42P01", message := "" })).1.error
      = some fallbackErrorMsg ∧
    some fallbackErrorMsg ≠ some ("" : String) :=
  ⟨by decide, by decide, by decide⟩

/-- C4 (amended): for a structured error whose code is not 23505, the
submit call surfaces the collaborator message verbatim in the returned
error field; whenever that message is non-empty the holder also ends
Failed with exactly that message (an empty message is replaced in the
stored state by the fallback text "Something went wrong"). -/
theorem other_error_message_surfaced_verbatim (h : HookState)
    (email source metaNow insertNow userAgent referrer : String)
    (e : DbError) (hCode : e.code ≠ uniqueViolationCode)
    (hMsg : e.message ≠ "") (hNS : h.success = false) :
    (useEmailSignup.submitEmail h email source metaNow insertNow userAgent
        referrer (DbOutcome.dbError e)).2.2
      = { success := false, error := some e.message } ∧
    (useEmailSignup.submitEmail h email source metaNow insertNow userAgent
        referrer (DbOutcome.dbError e)).1
      = { isLoading := false, success := false
          error := some e.message } := by
  have hres : resultOf (DbOutcome.dbError e)
      = { success := false, error := some e.message } := by
    simp [resultOf, submitEmailTry, insertOutcome, catchAll, hCode]
  have hver : orFallback (some e.message) fallbackErrorMsg = e.message :=
    orFallback_of_ne e.message fallbackErrorMsg hMsg
  constructor
  · simp [useEmailSignup.submitEmail, EmailService.submitEmail, hres]
  · simp [useEmailSignup.submitEmail, EmailService.submitEmail, applyResult,
      hres, hver, hNS]

theorem other_error_message_surfaced_verbatim_witness :
    (useEmailSignup.submitEmail initialHookState "new@example.com"
        "hero_form" "2025-01-01T00:00:00.000Z" "2025-01-01T00:00:00.000Z"
        "test-agent" ""
        (DbOutcome.dbError
          { code := "42P01", message := "relation does not exist" })).2.2
      = { success := false, error := some "relation does not exist" } ∧
    (useEmailSignup.submitEmail initialHookState "new@example.com"
        "hero_form" "2025-01-01T00:00:00.000Z" "2025-01-01T00:00:00.000Z"
        "test-agent" ""
        (DbOutcome.dbError
          { code := "42P01", message := "relation does not exist" })).1
      = { isLoading := false, success := false
          error := some "relation does not exist" } :=
  other_error_message_surfaced_verbatim initialHookState "new@example.com"
    "hero_form" "2025-01-01T00:00:00.000Z" "2025-01-01T00:00:00.000Z"
    "test-agent" "" { code := "42P01", message := "relation does not exist" }
    (by decide) (by decide) rfl

/- Payload of the create-row request. -/

/-- Modelled from the spec: the create-row payload as sections 4.1 and 6
describe it, with the creation timestamp set by the persistence
collaborator (the server) at insert time. The repository client code has
no server clock, so this definition follows the spec words literally: the
created_at field holds the server clock value serverNow. -/
def specServerSetRow (email source : String) (m : Metadata)
    (serverNow : String) : InsertRow :=
  { email := email
    source := source
    metadata := MetadataJson.obj m
    created_at := serverNow }

/-- C2 (counterexample): in a concrete run whose collaborator clock reads
five seconds after the client clock, the single issued row carries the
client clock value, so the issued request differs from the payload with a
server-set creation timestamp that the claim describes. -/
theorem created_at_not_server_set :
    ((useEmailSignup.submitEmail initialHookState "new@example.com"
        "hero_form" "2025-01-01T00:00:00.000Z" "2025-01-01T00:00:00.000Z"
        "test-agent" "" DbOutcome.ok).2.1.map InsertRow.created_at)
      = ["2025-01-01T00:00:00.000Z"] ∧
    ("2025-01-01T00:00:00.000Z" : String) ≠ "2025-01-01T00:00:05.000Z" ∧
    (useEmailSignup.submitEmail initialHookState "new@example.com"
        "hero_form" "2025-01-01T00:00:00.000Z" "2025-01-01T00:00:00.000Z"
        "test-agent" "" DbOutcome.ok).2.1
      ≠ [specServerSetRow "new@example.com" "hero_form"
          (foundingMetadata "2025-01-01T00:00:00.000Z" "test-agent" "")
          "2025-01-01T00:00:05.000Z"] :=
  ⟨by decide, by decide, by decide⟩

/-- C2 (amended): every completed submit call issues exactly one insert
row, whose payload has the given email and source, the founding metadata
(tier, benefits, submission timestamp, user agent, referrer), and a
creation timestamp set by the submitting client at call time, not by the
collaborator. -/
theorem submit_issues_one_request_with_client_timestamp (h : HookState)
    (email source metaNow insertNow userAgent referrer : String)
    (outcome : DbOutcome) (hEmail : email ≠ "") (hSource : source ≠ "") :
    (useEmailSignup.submitEmail h email source metaNow insertNow userAgent
        referrer outcome).2.1
      = [{ email := email
           source := source
           metadata := MetadataJson.obj
             (foundingMetadata metaNow userAgent referrer)
           created_at := insertNow }] := by
  simp [useEmailSignup.submitEmail, EmailService.submitEmail, insertPayload]

theorem submit_issues_one_request_with_client_timestamp_witness :
    (useEmailSignup.submitEmail initialHookState "new@example.com"
        "hero_form" "2025-01-01T00:00:00.000Z" "2025-01-01T00:00:00.000Z"
        "test-agent" "" DbOutcome.ok).2.1
      = [{ email := "new@example.com"
           source := "hero_form"
           metadata := MetadataJson.obj
             (foundingMetadata "2025-01-01T00:00:00.000Z" "test-agent" "")
           created_at := "2025-01-01T00:00:00.000Z" }] :=
  submit_issues_one_request_with_client_timestamp initialHookState
    "new@example.com" "hero_form" "2025-01-01T00:00:00.000Z"
    "2025-01-01T00:00:00.000Z" "test-agent" "" DbOutcome.ok
    (by decide) (by decide)

/-- C9: a result of EmailService.submitEmail carries no error message
exactly when success is true, so the error field is present only on
failures. -/
theorem error_present_iff_failure (d : EmailData) (insertNow : String)
    (outcome : DbOutcome) :
    ((EmailService.submitEmail d insertNow outcome).2.error = none ↔
      (EmailService.submitEmail d insertNow outcome).2.success = true) := by
  cases outcome with
  | ok =>
      simp [EmailService.submitEmail, resultOf, submitEmailTry,
        insertOutcome, catchAll]
  | dbError e =>
      by_cases hc : e.code = uniqueViolationCode <;>
        simp [EmailService.submitEmail, resultOf, submitEmailTry,
          insertOutcome, catchAll, hc]
  | thrown fault =>
      simp [EmailService.submitEmail, resultOf, submitEmailTry,
        insertOutcome, catchAll]

/-- C10: EmailService.submitEmail is total at its interface: in the
exception-monad view the try/catch always returns an ok value, equal to
the pure function result, for every collaborator behaviour including a
raised fault. -/
theorem submitEmail_total_never_throws (d : EmailData) (insertNow : String)
    (outcome : DbOutcome) :
    (EmailService.submitEmailE d insertNow outcome).isOk = true ∧
    EmailService.submitEmailE d insertNow outcome
      = Except.ok (EmailService.submitEmail d insertNow outcome) := by
  cases htry : submitEmailTry outcome <;>
    simp [EmailService.submitEmailE, EmailService.submitEmail, resultOf,
      catchAll, htry, Except.isOk, Except.toBool]
